import Mathlib

/-!
Verification of the kbcursor multi-strategy crawl orchestrator
(`scripts/crawl.py`, with `tools/mongo.py`, and
`scripts/utils/proxy_manager.py`) against its natural-language
specification.

The development is a shallow embedding of the Python source:

* pure helpers (`is_content_relevant_to_title`, tokenisation performed by
  scikit-learn inside it) become Lean functions;
* MongoDB documents are modelled by an explicit value universe `PyVal`
  (string / int / datetime / None / dict), since the behaviour of
  `MongoValidator` in `tools/mongo.py` depends on the dynamic types of the
  field values;
* external effects (HTTP fetches of the individual crawl strategies, the
  `find_one` call of `should_crawl`, the connectivity probe of the proxy
  manager, the FreeProxy lookup) are supplied as explicit outcome values in
  an environment record, and exceptions are modelled with `Except`;
* datetimes are modelled as integer timestamps in seconds
  (`timedelta(days=7)` becomes `7 * 86400`).
-/

set_option maxRecDepth 4000

namespace KbCursor

/-! ## Tokenisation as performed by scikit-learn TfidfVectorizer

`is_content_relevant_to_title` in `scripts/crawl.py` builds
`TfidfVectorizer(stop_words='english')` and calls
`fit_transform([title, text])`.  With scikit-learn defaults this
lower-cases the input, tokenises it with the pattern `\w\w+` (maximal runs
of word characters, kept only when at least two characters long) and then
removes the built-in English stop words.  Word characters are modelled as
ASCII alphanumerics plus underscore.
-/

/-- Maximal runs of characters satisfying `p`, in order.  The accumulator
holds the current run reversed. -/
def runsBy (p : Char → Bool) : List Char → List Char → List (List Char)
  | [], acc => if acc.isEmpty then [] else [acc.reverse]
  | c :: rest, acc =>
    if p c then runsBy p rest (c :: acc)
    else if acc.isEmpty then runsBy p rest [] else acc.reverse :: runsBy p rest []

/-- A word character for the scikit-learn token pattern `\w\w+`
(ASCII approximation of the regex class `\w`). -/
def isWordChar (c : Char) : Bool := c.isAlphanum || c = '_'

/-- The scikit-learn built-in English stop word list
(`sklearn.feature_extraction._stop_words.ENGLISH_STOP_WORDS`),
applied by `TfidfVectorizer(stop_words='english')`. -/
def englishStopWords : List String :=
  ["a", "about", "above", "across", "after", "afterwards", "again", "against",
   "all", "almost", "alone", "along", "already", "also", "although", "always",
   "am", "among", "amongst", "amoungst", "amount", "an", "and", "another",
   "any", "anyhow", "anyone", "anything", "anyway", "anywhere", "are",
   "around", "as", "at", "back", "be", "became", "because", "become",
   "becomes", "becoming", "been", "before", "beforehand", "behind", "being",
   "below", "beside", "besides", "between", "beyond", "bill", "both",
   "bottom", "but", "by", "call", "can", "cannot", "cant", "co", "con",
   "could", "couldnt", "cry", "de", "describe", "detail", "do", "done",
   "down", "due", "during", "each", "eg", "eight", "either", "eleven",
   "else", "elsewhere", "empty", "enough", "etc", "even", "ever", "every",
   "everyone", "everything", "everywhere", "except", "few", "fifteen",
   "fifty", "fill", "find", "fire", "first", "five", "for", "former",
   "formerly", "forty", "found", "four", "from", "front", "full", "further",
   "get", "give", "go", "had", "has", "hasnt", "have", "he", "hence", "her",
   "here", "hereafter", "hereby", "herein", "hereupon", "hers", "herself",
   "him", "himself", "his", "how", "however", "hundred", "i", "ie", "if",
   "in", "inc", "indeed", "interest", "into", "is", "it", "its", "itself",
   "keep", "last", "latter", "latterly", "least", "less", "ltd", "made",
   "many", "may", "me", "meanwhile", "might", "mill", "mine", "more",
   "moreover", "most", "mostly", "move", "much", "must", "my", "myself",
   "name", "namely", "neither", "never", "nevertheless", "next", "nine",
   "no", "nobody", "none", "noone", "nor", "not", "nothing", "now",
   "nowhere", "of", "off", "often", "on", "once", "one", "only", "onto",
   "or", "other", "others", "otherwise", "our", "ours", "ourselves", "out",
   "over", "own", "part", "per", "perhaps", "please", "put", "rather", "re",
   "same", "see", "seem", "seemed", "seeming", "seems", "serious", "several",
   "she", "should", "show", "side", "since", "sincere", "six", "sixty",
   "so", "some", "somehow", "someone", "something", "sometime", "sometimes",
   "somewhere", "still", "such", "system", "take", "ten", "than", "that",
   "the", "their", "them", "themselves", "then", "thence", "there",
   "thereafter", "thereby", "therefore", "therein", "thereupon", "these",
   "they", "thick", "thin", "third", "this", "those", "though", "three",
   "through", "throughout", "thru", "thus", "to", "together", "too", "top",
   "toward", "towards", "twelve", "twenty", "two", "un", "under", "until",
   "up", "upon", "us", "very", "via", "was", "we", "well", "were", "what",
   "whatever", "when", "whence", "whenever", "where", "whereafter",
   "whereas", "whereby", "wherein", "whereupon", "wherever", "whether",
   "which", "while", "whither", "who", "whoever", "whole", "whom", "whose",
   "why", "will", "with", "within", "without", "would", "yet", "you",
   "your", "yours", "yourself", "yourselves"]

/-- Tokenise a document the way `TfidfVectorizer(stop_words='english')`
does: lower-case, split into maximal runs of word characters, keep runs of
length at least 2, drop English stop words.  (The additional
`.lower().strip()` performed by `is_content_relevant_to_title` before
vectorising is idempotent with respect to this tokenisation.) -/
def tokenize (s : String) : List String :=
  (((runsBy isWordChar (s.data.map Char.toLower) []).filter
      (fun r => 2 ≤ r.length)).map (fun r => String.mk r)).filter
    (fun w => !(englishStopWords.contains w))

/-! ## TF-IDF cosine similarity over the two-document corpus {title, text}

With scikit-learn defaults (`smooth_idf=True`, `norm='l2'`,
`sublinear_tf=False`) and a corpus of exactly two documents, the idf weight
of a term is `ln(3/2) + 1` when the term occurs in exactly one document and
`ln(3/3) + 1 = 1` when it occurs in both.  Writing, for token lists
`t1` (title) and `t2` (text),

* `D  = Σ over shared terms of count_t1 * count_t2`       (`tfDot`),
* `C1 = Σ over shared terms of count_t1 ^ 2`              (`tfSharedSq1`),
* `U1 = Σ over title-only terms of count_t1 ^ 2`          (`tfOnlySq1`),

(and `C2`, `U2` symmetrically), the cosine similarity computed by the
Python code is `D / sqrt((C1 + W * U1) * (C2 + W * U2))` where
`W = (1 + ln(3/2))^2`, because only shared terms (idf weight 1) contribute
to the dot product.  The code accepts iff similarity `> 0.1`; since all
quantities are nonnegative this holds iff
`100 * D^2 > (C1 + W * U1) * (C2 + W * U2)`, which is a rational
comparison except for the irrational weight `W`.  The embedding therefore
takes the squared df=1 idf weight as a parameter `A`; the lemma
`idf_weight_sq_bounds` below shows the true weight satisfies
`16/9 ≤ W ≤ 9/4`, and every theorem about the relevance check quantifies
over all `A` in that interval. -/

/-- Terms occurring in both documents (each listed once). -/
def sharedTerms (t1 t2 : List String) : List String :=
  t1.dedup.filter (fun w => t2.contains w)

/-- Terms occurring only in the first document (each listed once). -/
def onlyTerms1 (t1 t2 : List String) : List String :=
  t1.dedup.filter (fun w => !(t2.contains w))

/-- Terms occurring only in the second document (each listed once). -/
def onlyTerms2 (t1 t2 : List String) : List String :=
  t2.dedup.filter (fun w => !(t1.contains w))

/-- Dot product of the raw term-frequency vectors over shared terms. -/
def tfDot (t1 t2 : List String) : Nat :=
  ((sharedTerms t1 t2).map (fun w => t1.count w * t2.count w)).sum

/-- Sum of squared term frequencies of document 1 over shared terms. -/
def tfSharedSq1 (t1 t2 : List String) : Nat :=
  ((sharedTerms t1 t2).map (fun w => t1.count w ^ 2)).sum

/-- Sum of squared term frequencies of document 2 over shared terms. -/
def tfSharedSq2 (t1 t2 : List String) : Nat :=
  ((sharedTerms t1 t2).map (fun w => t2.count w ^ 2)).sum

/-- Sum of squared term frequencies of document 1 over its private terms. -/
def tfOnlySq1 (t1 t2 : List String) : Nat :=
  ((onlyTerms1 t1 t2).map (fun w => t1.count w ^ 2)).sum

/-- Sum of squared term frequencies of document 2 over its private terms. -/
def tfOnlySq2 (t1 t2 : List String) : Nat :=
  ((onlyTerms2 t1 t2).map (fun w => t2.count w ^ 2)).sum

/-- Squared norm of the tf-idf vector of document 1, given the squared
df=1 idf weight `A`. -/
def normSq1 (A : ℚ) (t1 t2 : List String) : ℚ :=
  (tfSharedSq1 t1 t2 : ℚ) + A * (tfOnlySq1 t1 t2 : ℚ)

/-- Squared norm of the tf-idf vector of document 2, given the squared
df=1 idf weight `A`. -/
def normSq2 (A : ℚ) (t1 t2 : List String) : ℚ :=
  (tfSharedSq2 t1 t2 : ℚ) + A * (tfOnlySq2 t1 t2 : ℚ)

/-- Embedding of `is_content_relevant_to_title(title, text)` from
`scripts/crawl.py`.  The parameters `wn`, `wd` represent the squared df=1
idf weight `(1 + ln(3/2))^2` as the fraction `wn / wd` (see
`idf_weight_sq_bounds`); the theorems below quantify over every fraction
in `[16/9, 9/4]`, an interval containing the true weight.

Behaviour of the Python function:
* `TfidfVectorizer.fit_transform([title, text])` raises
  `ValueError("empty vocabulary ...")` exactly when neither document
  yields any token; the surrounding `except` then returns `True`.
* Otherwise the similarity `(tfidf_matrix * tfidf_matrix.T).A[0][1]` is
  computed (a zero tf-idf row stays zero under l2 normalisation, so a
  token-less single document gives similarity 0) and the function returns
  `similarity > 0.1`.  Since all quantities involved are nonnegative,
  `similarity > 1/10` holds iff
  `100 * D^2 > (C1 + A * U1) * (C2 + A * U2)` with `A = wn / wd`, and
  multiplying through by `wd^2` gives the equivalent natural-number
  comparison used below (`relevance_gate_iff_simSq` makes the connection
  to the rational cosine similarity precise). -/
def is_content_relevant_to_title (wn wd : ℕ) (title text : String) : Bool :=
  if (tokenize title).isEmpty && (tokenize text).isEmpty then true
  else
    decide (100 * tfDot (tokenize title) (tokenize text) ^ 2 * wd ^ 2 >
      (tfSharedSq1 (tokenize title) (tokenize text) * wd +
          wn * tfOnlySq1 (tokenize title) (tokenize text)) *
        (tfSharedSq2 (tokenize title) (tokenize text) * wd +
          wn * tfOnlySq2 (tokenize title) (tokenize text)))

/-- The squared cosine similarity between the tf-idf vectors of title and
text (0 when one of the vectors is zero), given the squared df=1 idf
weight `A : ℚ`.  The Python code accepts iff the (nonnegative) similarity
exceeds 0.1, i.e. iff this squared similarity exceeds 1/100 (shown in
`relevance_gate_iff_simSq`). -/
def cosineSimSq (A : ℚ) (title text : String) : ℚ :=
  if normSq1 A (tokenize title) (tokenize text) *
      normSq2 A (tokenize title) (tokenize text) = 0 then 0
  else
    (tfDot (tokenize title) (tokenize text) : ℚ) ^ 2 /
      (normSq1 A (tokenize title) (tokenize text) *
        normSq2 A (tokenize title) (tokenize text))

/-! ## MongoDB documents as dynamically typed values

`_store_result` and `_record_crawl_failure` in `scripts/crawl.py` build
Python dicts mixing strings, ints, datetimes and `None`, and pass them
through `MongoValidator.prepare_for_mongodb` (`tools/mongo.py`), whose
behaviour depends on the dynamic type of every field value.  Documents are
therefore modelled by a small value universe.  `PyVal.dict` uses a
dedicated field-list type (`PyFields`) so that all recursions below are
structural.  Python lists and floats do not occur in any document handled
by the crawl path and are omitted. -/

mutual

/-- A Python value as it appears in the crawl documents. -/
inductive PyVal where
  | str (s : String)
  | int (n : Int)
  | dt (t : Int)
  | none
  | dict (fields : PyFields)

/-- Fields of a Python dict, in insertion order. -/
inductive PyFields where
  | nil
  | cons (key : String) (value : PyVal) (rest : PyFields)

end

/-- Lookup of a key in a dict (Python dicts have unique keys; the first
match is taken). -/
def PyFields.lookup : PyFields → String → Option PyVal
  | .nil, _ => Option.none
  | .cons k v rest, key => if k = key then some v else rest.lookup key

/-- Field lookup on a value: `None` unless the value is a dict containing
the key. -/
def docLookup (v : PyVal) (key : String) : Option PyVal :=
  match v with
  | .dict f => f.lookup key
  | _ => Option.none

/-- Python truthiness of the modelled values (`bool(v)`): empty strings,
zero, `None` and empty dicts are falsy. -/
def pyTruthy : PyVal → Bool
  | .str s => s ≠ ""
  | .int n => n ≠ 0
  | .dt _ => true
  | .none => false
  | .dict .nil => false
  | .dict (.cons _ _ _) => true

/-! ## The schema validator of tools/mongo.py

`RAW_CONTENT_SCHEMA` maps field names to expected types: `str`, `int`,
`"datetime"`, the type `dict` (any dict), or a nested schema dict.
`validate_schema` walks the schema and collects error strings; here only
the number of errors matters (`prepare_for_mongodb` tests emptiness of the
error list).  `sanitize_data` rebuilds the dict keeping only schema keys:
a missing key or a `None` value is replaced by a type default for the flat
types (`""`, `0`, `datetime.utcnow()`) and silently dropped for nested
schema dicts (no branch of its `if` chain matches a schema given as a dict
instance); otherwise flat types are converted; crucially, a value whose
expected type is a nested schema dict is passed through unchanged, because
`expected_type == str` / `int` / `float` / `list` / `dict` / `"datetime"`
are all `False` when `expected_type` is a dict instance — `sanitize_data`
never recurses into nested dicts. -/

mutual

/-- Expected type of a schema field (`float` and `list` do not occur in
`RAW_CONTENT_SCHEMA`). -/
inductive SchemaTy where
  | strTy
  | intTy
  | dtTy
  | dictAnyTy
  | nested (fields : SchemaFields)

/-- Fields of a schema dict. -/
inductive SchemaFields where
  | nil
  | cons (key : String) (ty : SchemaTy) (rest : SchemaFields)

end

/-- Embedding of `MongoValidator.validate_type` for the flat types: `"datetime"`
accepts a datetime or a string, additionally requiring truthiness
(datetimes are always truthy, strings when nonempty); the others are
`isinstance` checks. -/
def validate_type (v : PyVal) (t : SchemaTy) : Bool :=
  match t with
  | .strTy => match v with | .str _ => true | _ => false
  | .intTy => match v with | .int _ => true | _ => false
  | .dtTy => match v with | .dt _ => true | .str s => s ≠ "" | _ => false
  | .dictAnyTy => match v with | .dict _ => true | _ => false
  | .nested _ => false

mutual

/-- Number of validation errors contributed by one value against one
expected type (`MongoValidator.validate_schema`, per-field part): a nested
schema expects a dict and recurses; otherwise `validate_type` decides. -/
def validateField (v : PyVal) : SchemaTy → Nat
  | .nested fs =>
    match v with
    | .dict d => validateFields fs d
    | _ => 1
  | t => if validate_type v t then 0 else 1

/-- Number of validation errors of a dict against a schema
(`MongoValidator.validate_schema`): one error per missing required field,
plus the errors of each present field. -/
def validateFields : SchemaFields → PyFields → Nat
  | .nil, _ => 0
  | .cons k t rest, d =>
    (match d.lookup k with
      | Option.none => 1
      | some v => validateField v t) + validateFields rest d

end

/-- String conversion `str(value)` (only the `str` case is ever reached by
the crawl documents, whose flat fields are well typed). -/
def pyStr : PyVal → String
  | .str s => s
  | .int n => toString n
  | .dt t => toString t
  | .none => "None"
  | .dict _ => "dict"

/-- Type-default used by `sanitize_data` for a missing or `None` value of
flat expected type (`now` models `datetime.utcnow()`). -/
def sanitizeDefault (now : Int) : SchemaTy → PyVal
  | .strTy => .str ""
  | .intTy => .int 0
  | .dtTy => .dt now
  | .dictAnyTy => .dict .nil
  | .nested _ => .none

/-- Conversion applied by `sanitize_data` to a present, non-`None` value:
`str(value)` for `str`; `int(float(value))` for `int` (identity on ints,
conversion failure falls back to the default `0` for the other value
shapes reached here); for `"datetime"` only strings are converted (to a
parse result or `utcnow`, modelled as `now`), all other values pass
through unchanged; for `dict` a non-dict value is wrapped; a nested schema
dict matches no branch of the `if` chain and the value passes through
unchanged. -/
def sanitizeField (now : Int) (v : PyVal) : SchemaTy → PyVal
  | .strTy => .str (pyStr v)
  | .intTy => match v with | .int n => .int n | _ => .int 0
  | .dtTy => match v with | .str _ => .dt now | w => w
  | .dictAnyTy => match v with | .dict d => .dict d | w => .dict (.cons "value" w .nil)
  | .nested _ => v

/-- Embedding of `MongoValidator.sanitize_data`: rebuild the dict following the schema
keys.  `data.get(key)` yields `None` both for a missing key and for an
explicit `None` value; in that case flat types get their default and a
nested schema key is silently dropped (no branch of the `if` chain matches
a dict instance). -/
def sanitizeFields (now : Int) : SchemaFields → PyFields → PyFields
  | .nil, _ => .nil
  | .cons k t rest, d =>
    match d.lookup k with
    | Option.none =>
      (match t with
        | .nested _ => sanitizeFields now rest d
        | t0 => .cons k (sanitizeDefault now t0) (sanitizeFields now rest d))
    | some .none =>
      (match t with
        | .nested _ => sanitizeFields now rest d
        | t0 => .cons k (sanitizeDefault now t0) (sanitizeFields now rest d))
    | some v => .cons k (sanitizeField now v t) (sanitizeFields now rest d)

/-- Application of `validate_schema` to a document (call sites always pass dicts). -/
def validateDoc (schema : SchemaFields) (d : PyVal) : Nat :=
  match d with
  | .dict f => validateFields schema f
  | _ => validateFields schema .nil

/-- Application of `sanitize_data` to a document (call sites always pass dicts). -/
def sanitizeDoc (now : Int) (schema : SchemaFields) (d : PyVal) : PyVal :=
  match d with
  | .dict f => .dict (sanitizeFields now schema f)
  | _ => .dict (sanitizeFields now schema .nil)

/-- Embedding of `MongoValidator.prepare_for_mongodb`: validate; on errors sanitize and
re-validate; raise `ValueError` if errors remain (the sanitized data is
returned when the second validation passes, since `data` is rebound). -/
def prepare_for_mongodb (now : Int) (schema : SchemaFields) (d : PyVal) :
    Except Unit PyVal :=
  if validateDoc schema d = 0 then .ok d
  else
    if validateDoc schema (sanitizeDoc now schema d) = 0 then
      .ok (sanitizeDoc now schema d)
    else .error ()

/-- The `crawl_meta` part of `RAW_CONTENT_SCHEMA` in `tools/mongo.py`. -/
def CRAWL_META_SCHEMA : SchemaFields :=
  .cons "method" .strTy (.cons "crawl_time" .dtTy (.cons "updated_at" .dtTy
    (.cons "content_hash" .strTy (.cons "word_count" .intTy
      (.cons "status" .strTy (.cons "attempts" .intTy
        (.cons "last_success" .dtTy (.cons "last_failure" .dtTy
          (.cons "failure_reason" .strTy .nil)))))))))

/-- The schema `RAW_CONTENT_SCHEMA` from `tools/mongo.py`. -/
def RAW_CONTENT_SCHEMA : SchemaFields :=
  .cons "url" .strTy (.cons "title" .strTy (.cons "text" .strTy
    (.cons "metadata" (.nested (.cons "source_meta" .dictAnyTy
        (.cons "crawl_meta" (.nested CRAWL_META_SCHEMA) .nil)))
      (.cons "method" .strTy (.cons "crawl_time" .dtTy
        (.cons "updated_at" .dtTy (.cons "word_count" .intTy
          (.cons "status" .strTy (.cons "content_hash" .strTy .nil)))))))))

/-! ## The crawler data model of scripts/crawl.py -/

/-- The `CrawlResult` dataclass.  `metadata` is kept as a `PyVal` because
the cached-result path of `crawl_url` places an entire stored nested
metadata dict in this field, while the strategies build flat dicts. -/
structure CrawlResult where
  url : String
  title : Option String
  text : String
  metadata : PyVal
  crawl_time : Int
  method : String

/-- Python `str.split()` word count: number of maximal whitespace-free
runs (`len(result.text.split())`). -/
def pyWordCount (s : String) : Nat :=
  (runsBy (fun c => !c.isWhitespace) s.data []).length

/-- Embedding of `collection.find_one({"url": url})`: the first document whose `url`
field equals the given string. -/
def find_one (coll : List PyVal) (url : String) : Option PyVal :=
  coll.find? (fun d =>
    match docLookup d "url" with
    | some (.str s) => s == url
    | _ => false)

/-- Set one field of a field list (replace in place, else append), the
effect of a MongoDB `$set` on one key. -/
def PyFields.setField : PyFields → String → PyVal → PyFields
  | .nil, k, v => .cons k v .nil
  | .cons k0 v0 rest, k, v =>
    if k0 = k then .cons k0 v rest else .cons k0 v0 (rest.setField k v)

/-- Apply all fields of `src` to `dst` (`$set` with a whole document). -/
def setAllFields (dst : PyFields) : PyFields → PyFields
  | .nil => dst
  | .cons k v rest => setAllFields (dst.setField k v) rest

/-- Embedding of `collection.update_one({"url": url}, {"$set": doc}, upsert=True)`:
set all fields of `doc` on the first matching document, or insert `doc`
when no document matches. -/
def updateOneSet (url : String) (doc : PyVal) : List PyVal → List PyVal
  | [] => [doc]
  | d :: rest =>
    if (match docLookup d "url" with
        | some (.str s) => s == url
        | _ => false) then
      (match d, doc with
        | .dict f, .dict g => PyVal.dict (setAllFields f g)
        | _, _ => doc) :: rest
    else d :: updateOneSet url doc rest

/-- The `crawl_meta` dict built by `_store_result` (success path).
`lf` is `existing_crawl_meta.get("last_failure")`, `att` the previous
attempt count; note the literal `"failure_reason": None`. -/
def successCrawlMeta (method0 : String) (now : Int) (h : String) (wc : Nat)
    (att : Int) (lf : PyVal) : PyFields :=
  .cons "method" (.str method0) (.cons "crawl_time" (.dt now)
    (.cons "updated_at" (.dt now) (.cons "content_hash" (.str h)
      (.cons "word_count" (.int wc) (.cons "status" (.str "success")
        (.cons "attempts" (.int (att + 1)) (.cons "last_success" (.dt now)
          (.cons "last_failure" lf
            (.cons "failure_reason" PyVal.none .nil)))))))))

/-- The full document built by `_store_result` before validation. -/
def successDocFields (u : String) (ti : Option String) (tx : String)
    (srcMeta : PyVal) (cm : PyFields) (method0 : String) (now : Int)
    (wc : Nat) (h : String) : PyFields :=
  .cons "url" (.str u) (.cons "title" (.str (ti.getD ""))
    (.cons "text" (.str tx)
      (.cons "metadata" (.dict (.cons "source_meta" srcMeta
          (.cons "crawl_meta" (.dict cm) .nil)))
        (.cons "method" (.str method0) (.cons "crawl_time" (.dt now)
          (.cons "updated_at" (.dt now) (.cons "word_count" (.int wc)
            (.cons "status" (.str "success")
              (.cons "content_hash" (.str h) .nil)))))))))

/-- Extraction of `existing_crawl_meta` in `_store_result` and
`_record_crawl_failure`: `existing_doc.get("metadata", {})` followed by
`.get("crawl_meta", {})`.  A missing key yields `{}`; a present non-dict
value (including `None`) later triggers an `AttributeError` on `.get`,
re-raised by the surrounding handler, modelled as `.error`. -/
def existingCrawlMeta (existing : PyVal) : Except Unit PyFields :=
  match docLookup existing "metadata" with
  | Option.none => .ok .nil
  | some (.dict mf) =>
    match mf.lookup "crawl_meta" with
    | Option.none => .ok .nil
    | some (.dict cf) => .ok cf
    | some _ => .error ()
  | some _ => .error ()

/-- Embedding of `existing_crawl_meta.get("attempts", 0)`: missing yields 0; a present
non-int value makes the subsequent `+ 1` raise a `TypeError`, re-raised by
the surrounding handler. -/
def existingAttempts (cf : PyFields) : Except Unit Int :=
  match cf.lookup "attempts" with
  | Option.none => .ok 0
  | some (.int n) => .ok n
  | some _ => .error ()

/-- Embedding of `MultiCrawler._store_result`: read the existing document, build the
success document, validate via `prepare_for_mongodb` (which re-raises on
validation failure), then upsert.  `hash` models
`hashlib.sha256(..).hexdigest()` (the claims do not depend on the digest
function); `writeOk` models whether the MongoDB write itself succeeds. -/
def store_result (now : Int) (hash : String → String) (writeOk : Bool)
    (coll : List PyVal) (r : CrawlResult) : Except Unit (List PyVal) :=
  match existingCrawlMeta ((find_one coll r.url).getD (.dict .nil)) with
  | .error _ => .error ()
  | .ok cf =>
    match existingAttempts cf with
    | .error _ => .error ()
    | .ok att =>
      match prepare_for_mongodb now RAW_CONTENT_SCHEMA
          (.dict (successDocFields r.url r.title r.text
            (if pyTruthy r.metadata then r.metadata else .dict .nil)
            (successCrawlMeta r.method now (hash r.text) (pyWordCount r.text)
              att ((cf.lookup "last_failure").getD PyVal.none))
            r.method now (pyWordCount r.text) (hash r.text))) with
      | .error _ => .error ()
      | .ok prepared =>
        if writeOk then .ok (updateOneSet r.url prepared coll) else .error ()

/-- The `crawl_meta` dict built by `_record_crawl_failure`; note the
literal `"content_hash": None` and the carried-over `last_success`. -/
def failureCrawlMeta (now : Int) (att : Int) (ls : PyVal) (reason : String) :
    PyFields :=
  .cons "method" (.str "failed") (.cons "crawl_time" (.dt now)
    (.cons "updated_at" (.dt now) (.cons "content_hash" PyVal.none
      (.cons "word_count" (.int 0) (.cons "status" (.str "failed")
        (.cons "attempts" (.int (att + 1)) (.cons "last_success" ls
          (.cons "last_failure" (.dt now)
            (.cons "failure_reason" (.str reason) .nil)))))))))

/-- The tracking document built by `_record_crawl_failure`: empty title,
empty text, empty top-level content hash, status `"failed"`. -/
def failureDocFields (url : String) (now : Int) (cm : PyFields) : PyFields :=
  .cons "url" (.str url) (.cons "title" (.str "")
    (.cons "text" (.str "")
      (.cons "metadata" (.dict (.cons "source_meta" (.dict .nil)
          (.cons "crawl_meta" (.dict cm) .nil)))
        (.cons "method" (.str "failed") (.cons "crawl_time" (.dt now)
          (.cons "updated_at" (.dt now) (.cons "word_count" (.int 0)
            (.cons "status" (.str "failed")
              (.cons "content_hash" (.str "") .nil)))))))))

/-- Embedding of `MultiCrawler._record_crawl_failure` (its `except` handler re-raises,
so a validation failure propagates to the caller). -/
def record_crawl_failure (now : Int) (writeOk : Bool) (coll : List PyVal)
    (url : String) (reason : String) : Except Unit (List PyVal) :=
  match existingCrawlMeta ((find_one coll url).getD (.dict .nil)) with
  | .error _ => .error ()
  | .ok cf =>
    match existingAttempts cf with
    | .error _ => .error ()
    | .ok att =>
      match prepare_for_mongodb now RAW_CONTENT_SCHEMA
          (.dict (failureDocFields url now
            (failureCrawlMeta now att ((cf.lookup "last_success").getD PyVal.none)
              reason))) with
      | .error _ => .error ()
      | .ok prepared =>
        if writeOk then .ok (updateOneSet url prepared coll) else .error ()

/-! ## The freshness decision should_crawl -/

/-- Reading `existing_doc['crawl_time']` inside `should_crawl`: only a
present datetime value is usable; a missing key (`KeyError`) or another
value shape (`TypeError` on the subtraction) is caught by the handler. -/
def getCrawlTime (doc : PyVal) : Option Int :=
  match docLookup doc "crawl_time" with
  | some (.dt t) => some t
  | _ => Option.none

/-- Seven days, the default minimum crawl interval, in seconds. -/
def minIntervalSeconds : Int := 7 * 86400

/-- Embedding of `MultiCrawler.should_crawl` from `scripts/crawl.py`.  `findOne` is the
outcome of `collection.find_one({"url": url})` (`.error` when the call
raises); `lastModified` is the result of `_check_last_modified` (which
swallows its own errors and returns `None`).  Any error inside the body is
caught and `(True, None)` returned. -/
def should_crawl (findOne : Except Unit (Option PyVal)) (now : Int)
    (lastModified : Option Int) : Bool × Option PyVal :=
  match findOne with
  | .error _ => (true, Option.none)
  | .ok Option.none => (true, Option.none)
  | .ok (some doc) =>
    match getCrawlTime doc with
    | Option.none => (true, Option.none)
    | some t =>
      if now - t < minIntervalSeconds then (false, some doc)
      else
        match lastModified with
        | some lm => if lm ≤ t then (false, some doc) else (true, Option.none)
        | Option.none => (true, Option.none)

/-! ## The orchestrator crawl_url -/

/-- Split a character list at the first occurrence of `"://"`. -/
def splitAtSchemeSep : List Char → Option (List Char × List Char)
  | [] => Option.none
  | ':' :: '/' :: '/' :: rest => some ([], rest)
  | c :: rest => (splitAtSchemeSep rest).map (fun p => (c :: p.1, p.2))

/-- URL validation in `crawl_url` (`urllib.parse.urlparse` then a check
that scheme and netloc are nonempty), modelled for `scheme://host/...`
shaped strings: a nonempty scheme before the first `"://"` and a nonempty
host between `"://"` and the next `/`. -/
def validUrl (url : String) : Bool :=
  match splitAtSchemeSep url.data with
  | some (scheme, rest) =>
    !scheme.isEmpty && !((rest.takeWhile (fun c => !(c == '/'))).isEmpty)
  | Option.none => false

/-- Whether the first character list is an initial segment of the second. -/
def isPrefixList : List Char → List Char → Bool
  | [], _ => true
  | _ :: _, [] => false
  | a :: as, b :: bs => a == b && isPrefixList as bs

/-- Whether the first character list occurs inside the second. -/
def infixAt : List Char → List Char → Bool
  | pat, [] => pat.isEmpty
  | pat, c :: rest => isPrefixList pat (c :: rest) || infixAt pat rest

/-- Substring test `'google.com/search' in url`. -/
def containsSub (url pat : String) : Bool :=
  infixAt pat.data url.data

/-- Rebuilding a `CrawlResult` from a cached stored document in
`crawl_url` (the six subscript accesses are not guarded by a handler, so a
missing field raises a `KeyError` out of `crawl_url`; a field of an
unexpected shape would build an ill-typed `CrawlResult` in Python and is
modelled as an error as well — no claim exercises that corner). -/
def cachedResult (doc : PyVal) : Except Unit CrawlResult :=
  match docLookup doc "url", docLookup doc "title", docLookup doc "text",
      docLookup doc "metadata", docLookup doc "crawl_time",
      docLookup doc "method" with
  | some (.str u), some (.str ti), some (.str tx), some m, some (.dt t),
      some (.str me) => .ok ⟨u, some ti, tx, m, t, me⟩
  | _, _, _, _, _, _ => .error ()

/-- Outcomes of the external effects during one `crawl_url` call: the
`find_one` read of `should_crawl`, the current time, the
`_check_last_modified` probe, one fetch outcome per strategy
(`.error` models an exception escaping the strategy method, `.ok none` a
`None` return), the digest function, and whether the two MongoDB writes
succeed when reached. -/
structure Env where
  findOne : Except Unit (Option PyVal)
  now : Int
  lastModified : Option Int
  static : Except Unit (Option CrawlResult)
  javascript : Except Unit (Option CrawlResult)
  selenium : Except Unit (Option CrawlResult)
  scrapy : Except Unit (Option CrawlResult)
  apify : Except Unit (Option CrawlResult)
  hash : String → String
  storeWriteOk : Bool
  failWriteOk : Bool

/-- The observable outcome of `crawl_url`: the method keys of the
strategies whose fetch was invoked, in order; the returned value
(`.error` when `crawl_url` raises); and the final collection state. -/
structure CrawlOutcome where
  attempted : List String
  result : Except Unit (Option CrawlResult)
  coll : List PyVal

/-- The free-crawler loop of `crawl_url` over
`[static, javascript, selenium, scrapy]`.  For each strategy: on an
exception or `None` continue; require nonempty text of length > 100;
require a truthy title (otherwise "failed to get title or text", falling
through to the next strategy); check relevance; on acceptance store, and
on a storage error continue to the next strategy.  Returns the accepted
result (if any), the keys attempted, and the resulting collection. -/
def freeLoop (wn wd : ℕ) (now : Int) (hash : String → String)
    (writeOk : Bool) :
    List (String × Except Unit (Option CrawlResult)) → List PyVal →
      Option CrawlResult × List String × List PyVal
  | [], coll => (Option.none, [], coll)
  | (key, out) :: rest, coll =>
    match out with
    | .error _ =>
      (fun o => (o.1, key :: o.2.1, o.2.2)) (freeLoop wn wd now hash writeOk rest coll)
    | .ok Option.none =>
      (fun o => (o.1, key :: o.2.1, o.2.2)) (freeLoop wn wd now hash writeOk rest coll)
    | .ok (some r) =>
      if r.text ≠ "" ∧ 100 < r.text.length then
        match r.title with
        | some t =>
          if t ≠ "" then
            if is_content_relevant_to_title wn wd t r.text then
              match store_result now hash writeOk coll r with
              | .ok coll2 => (some r, [key], coll2)
              | .error _ =>
                (fun o => (o.1, key :: o.2.1, o.2.2))
                  (freeLoop wn wd now hash writeOk rest coll)
            else
              (fun o => (o.1, key :: o.2.1, o.2.2))
                (freeLoop wn wd now hash writeOk rest coll)
          else
            (fun o => (o.1, key :: o.2.1, o.2.2))
              (freeLoop wn wd now hash writeOk rest coll)
        | Option.none =>
          (fun o => (o.1, key :: o.2.1, o.2.2))
            (freeLoop wn wd now hash writeOk rest coll)
      else
        (fun o => (o.1, key :: o.2.1, o.2.2))
          (freeLoop wn wd now hash writeOk rest coll)

/-- The Apify section of `crawl_url`: any nonempty text is sufficient; the
relevance check runs only when the title is truthy; a storage error is
caught and control falls through to the failure-recording step. -/
def apifyStep (wn wd : ℕ) (now : Int) (hash : String → String)
    (writeOk : Bool) (out : Except Unit (Option CrawlResult))
    (coll : List PyVal) : Option CrawlResult × List PyVal :=
  match out with
  | .error _ => (Option.none, coll)
  | .ok Option.none => (Option.none, coll)
  | .ok (some r) =>
    if r.text ≠ "" then
      if (match r.title with
          | Option.none => true
          | some t => t = "") then
        match store_result now hash writeOk coll r with
        | .ok coll2 => (some r, coll2)
        | .error _ => (Option.none, coll)
      else
        if is_content_relevant_to_title wn wd (r.title.getD "") r.text then
          match store_result now hash writeOk coll r with
          | .ok coll2 => (some r, coll2)
          | .error _ => (Option.none, coll)
        else (Option.none, coll)
    else (Option.none, coll)

/-- The strategy list of `crawl_url`, in its fixed priority order. -/
def strategyList (env : Env) : List (String × Except Unit (Option CrawlResult)) :=
  [("static", env.static), ("javascript", env.javascript),
   ("selenium", env.selenium), ("scrapy", env.scrapy)]

/-- The part of `crawl_url` after the cached-return and Google checks: the
free-crawler loop, then Apify, then `_record_crawl_failure` (whose
exception is not caught by `crawl_url`). -/
def runStrategies (wn wd : ℕ) (env : Env) (url : String)
    (coll : List PyVal) : CrawlOutcome :=
  match freeLoop wn wd env.now env.hash env.storeWriteOk (strategyList env) coll with
  | (some r, ks, c) => ⟨ks, .ok (some r), c⟩
  | (Option.none, ks, c) =>
    match apifyStep wn wd env.now env.hash env.storeWriteOk env.apify c with
    | (some r, c2) => ⟨ks ++ ["apify"], .ok (some r), c2⟩
    | (Option.none, c2) =>
      match record_crawl_failure env.now env.failWriteOk c2 url "Unknown error" with
      | .ok c3 => ⟨ks ++ ["apify"], .ok Option.none, c3⟩
      | .error _ => ⟨ks ++ ["apify"], .error (), c2⟩

/-- The cached-document gate of `crawl_url`:
`if not should_crawl and existing_data:` — the cached path is taken only
when the decision is `False` and the returned document is truthy. -/
def cacheDoc : Bool × Option PyVal → Option PyVal
  | (false, some d) => if pyTruthy d then some d else Option.none
  | _ => Option.none

/-- Embedding of `MultiCrawler.crawl_url` from `scripts/crawl.py`: URL validation, the
freshness decision with cached return, the Google-search rejection, then
the strategy cascade. -/
def crawl_url (wn wd : ℕ) (env : Env) (url : String) (coll : List PyVal) :
    CrawlOutcome :=
  if !validUrl url then ⟨[], .ok Option.none, coll⟩
  else
    match cacheDoc (should_crawl env.findOne env.now env.lastModified) with
    | some doc =>
      (match cachedResult doc with
        | .ok r => ⟨[], .ok (some r), coll⟩
        | .error _ => ⟨[], .error (), coll⟩)
    | Option.none =>
      if containsSub url "google.com/search" then ⟨[], .ok Option.none, coll⟩
      else runStrategies wn wd env url coll

/-! ## The proxy manager of scripts/utils/proxy_manager.py -/

/-- The mutable state of `ProxyManager`: the loaded proxy list, the
rotation index (`-1` initially), and the failed set. -/
structure ProxyState where
  proxy_list : List String
  current_index : Int
  failed : List String

/-- The rotation loop of `get_next_proxy`: up to `fuel` iterations
(`attempts < len(self.proxy_list)`), each advancing the index modulo the
list length; failed proxies are skipped, candidates are tested, and a
failing test adds the proxy to the failed set. -/
def rotate (test : String → Bool) (plist : List String) :
    Nat → Int → List String → Option String × Int × List String
  | 0, idx, failed => (Option.none, idx, failed)
  | fuel + 1, idx, failed =>
    (fun i =>
      (fun p =>
        if p ∈ failed then rotate test plist fuel i failed
        else if test p then (some p, i, failed)
        else rotate test plist fuel i (p :: failed))
      (plist.getD i.toNat ""))
    ((idx + 1) % (plist.length : Int))

/-- Embedding of `ProxyManager.get_next_proxy`.  Here `test` models `_test_proxy` (which
never raises), `freeProxy` the `FreeProxy(rand=True).get()` call
(`.error` when it raises), `reload` the list `_load_proxies` would
produce when the pool is empty.  After an exhausted rotation the FreeProxy
fallback result is connectivity-tested (but not checked against the
failed set) and appended to the pool; in every failure case `None` is
returned rather than an exception raised. -/
def get_next_proxy (test : String → Bool)
    (freeProxy : Except Unit (Option String)) (reload : List String)
    (st : ProxyState) : Option String × ProxyState :=
  (fun st1 =>
    if st1.proxy_list.isEmpty then (Option.none, st1)
    else
      match rotate test st1.proxy_list st1.proxy_list.length
          st1.current_index st1.failed with
      | (some p, i, f) =>
        (some p, { proxy_list := st1.proxy_list, current_index := i, failed := f })
      | (Option.none, i, f) =>
        (fun st2 =>
          match freeProxy with
          | .error _ => (Option.none, st2)
          | .ok Option.none => (Option.none, st2)
          | .ok (some np) =>
            if np ≠ "" && test np then
              (some np, { st2 with proxy_list := st2.proxy_list ++ [np] })
            else (Option.none, st2))
        { proxy_list := st1.proxy_list, current_index := i, failed := f })
  (if st.proxy_list.isEmpty then { st with proxy_list := reload } else st)

/-- Embedding of `ProxyManager.mark_proxy_failed`: add to the failed set only when the
proxy is in the pool. -/
def mark_proxy_failed (st : ProxyState) (p : String) : ProxyState :=
  if p ∈ st.proxy_list then { st with failed := p :: st.failed } else st

/-! ## Concrete fixtures used by the evaluation theorems below -/

/-- A rendered-strategy (`Playwright`) result with ample, self-consistent
content: one 120-character token as both title and text, so that the
relevance gate accepts it for every idf weight (no document-unique terms).
-/
def rC1 : CrawlResult :=
  ⟨"https://example.com/c1", some "cdcdcdcdcdcdcdcdcdcdcdcdcdcdcdcdcdcdcdcdcdcdcdcdcdcdcdcdcdcdcdcdcdcdcdcdcdcdcdcdcdcdcdcdcdcdcdcdcdcdcdcdcdcdcdcdcdcdcdcd",
   "cdcdcdcdcdcdcdcdcdcdcdcdcdcdcdcdcdcdcdcdcdcdcdcdcdcdcdcdcdcdcdcdcdcdcdcdcdcdcdcdcdcdcdcdcdcdcdcdcdcdcdcdcdcdcdcdcdcdcdcd", PyVal.dict .nil, 0, "javascript"⟩

/-- Environment for the escalation scenario: the static strategy fails
(returns `None`), the rendered strategy succeeds with `rC1`, the other
strategies return `None`, both database writes would succeed if reached. -/
def envC1 : Env :=
  ⟨Except.ok Option.none, 1000, Option.none,
   Except.ok Option.none, Except.ok (some rC1), Except.ok Option.none,
   Except.ok Option.none, Except.ok Option.none,
   fun _ => "h1", true, true⟩

/-- A static-strategy result with ample, self-consistent content. -/
def rC5 : CrawlResult :=
  ⟨"https://example.com/c5", some "efefefefefefefefefefefefefefefefefefefefefefefefefefefefefefefefefefefefefefefefefefefefefefefefefefefefefefefefefefefef",
   "efefefefefefefefefefefefefefefefefefefefefefefefefefefefefefefefefefefefefefefefefefefefefefefefefefefefefefefefefefefef", PyVal.dict .nil, 0, "static"⟩

/-- Environment in which the static strategy succeeds with an accepted
result whose storage then fails, and every other strategy fails. -/
def envC5 : Env :=
  ⟨Except.ok Option.none, 1000, Option.none,
   Except.ok (some rC5), Except.ok Option.none, Except.ok Option.none,
   Except.ok Option.none, Except.ok Option.none,
   fun _ => "h5", true, true⟩

/-- A static-strategy result whose text has 50 characters, below the
100-character content floor. -/
def rC4short : CrawlResult :=
  ⟨"https://example.com/c4", some "Some Title",
   "xxxxxxxxxxxxxxxxxxxxxxxxxxxxxxxxxxxxxxxxxxxxxxxxxx", PyVal.dict .nil, 0, "static"⟩

/-- A previously stored success document for the idempotence scenario
(attempt count 2, a recorded last failure at time 55, old content). -/
def docC6 : PyVal :=
  PyVal.dict (successDocFields "https://example.com/c6" (some "Old Title")
    "old text content" (.dict .nil)
    (successCrawlMeta "static" 100 "oldhash" 3 1 (PyVal.dt 55))
    "static" 100 3 "oldhash")

/-- A fresh crawl result for the same URL with different content. -/
def rC6 : CrawlResult :=
  ⟨"https://example.com/c6", some "ghghghghghghghghghghghghghghghghghghghghghghghghghghghghghghghghghghghghghghghghghghghghghghghghghghghghghghghghghghghgh",
   "ghghghghghghghghghghghghghghghghghghghghghghghghghghghghghghghghghghghghghghghghghghghghghghghghghghghghghghghghghghghgh", PyVal.dict .nil, 0, "javascript"⟩

/-- A previously stored document for the failure-recording scenario, with
attempt count 3 and a last success at time 111 in its crawl metadata. -/
def docC9 : PyVal :=
  PyVal.dict (.cons "url" (.str "https://example.com/c9")
    (.cons "title" (.str "Earlier Title")
      (.cons "text" (.str "earlier stored text")
        (.cons "metadata" (.dict (.cons "source_meta" (.dict .nil)
            (.cons "crawl_meta" (.dict (.cons "attempts" (.int 3)
              (.cons "last_success" (.dt 111) .nil))) .nil)))
          (.cons "crawl_time" (.dt 100) .nil)))))

/-- A fresh cached document stored for a Google search URL. -/
def docC10 : PyVal :=
  PyVal.dict (.cons "url" (.str "https://google.com/search?q=cached")
    (.cons "title" (.str "Cached Title")
      (.cons "text" (.str "cached text body")
        (.cons "metadata" (.dict (.cons "source_meta" (.dict .nil) .nil))
          (.cons "crawl_time" (.dt 900)
            (.cons "method" (.str "static") .nil))))))

/-- Environment whose ledger lookup finds `docC10`, crawled 100 seconds
before now (well inside the 7-day interval). -/
def envC10 : Env :=
  ⟨Except.ok (some docC10), 1000, Option.none,
   Except.ok Option.none, Except.ok Option.none, Except.ok Option.none,
   Except.ok Option.none, Except.ok Option.none,
   fun _ => "h10", true, true⟩

/-- The stored document of the freshness-skip scenario, last crawled at
time 0. -/
def docC2 : PyVal :=
  PyVal.dict (.cons "url" (.str "https://example.com/c2")
    (.cons "crawl_time" (.dt 0) .nil))

/-- A malformed tracking document whose `crawl_time` is a string: inside
`should_crawl` the subtraction would raise a `TypeError`. -/
def docC7bad : PyVal :=
  PyVal.dict (.cons "url" (.str "https://example.com/c7")
    (.cons "crawl_time" (.str "not-a-datetime") .nil))

/-- A connectivity probe that always succeeds. -/
def alwaysTrue : String → Bool := fun _ => true

/-- Pool of one proxy which is already marked failed. -/
def stC8 : ProxyState := ⟨["http://p1"], -1, ["http://p1"]⟩

/-- Pool of three proxies with proxy 1 marked failed, fresh rotation. -/
def stRR : ProxyState := ⟨["p1", "p2", "p3"], -1, ["p1"]⟩

/-- Pool of one proxy, already failed, for the exhaustion scenario. -/
def stAllFailed : ProxyState := ⟨["q9"], -1, ["q9"]⟩

/-- The squared df=1 smooth-idf weight used by scikit-learn on a
two-document corpus, `(1 + ln(3/2))^2`, lies in `[16/9, 9/4]`.
Consequently every statement below that is quantified over
`16/9 ≤ A ≤ 9/4` in particular applies to the weight the Python code
actually uses. -/
theorem idf_weight_sq_bounds :
    (16 / 9 : ℝ) ≤ (1 + Real.log (3 / 2)) ^ 2 ∧
      (1 + Real.log (3 / 2)) ^ 2 ≤ 9 / 4 := by
  have hup : Real.log (3 / 2) ≤ 1 / 2 := by
    have h := Real.log_le_sub_one_of_pos (x := 3 / 2) (by norm_num)
    linarith
  have hlow : (1 / 3 : ℝ) ≤ Real.log (3 / 2) := by
    have h := Real.log_le_sub_one_of_pos (x := 2 / 3) (by norm_num)
    have hinv : Real.log (3 / 2) = -Real.log (2 / 3) := by
      rw [show (3 / 2 : ℝ) = (2 / 3)⁻¹ by norm_num, Real.log_inv]
    linarith
  constructor
  · nlinarith [hlow, hup]
  · nlinarith [hlow, hup]

/-! ### Supporting lemmas about the term-frequency statistics -/

theorem count_fst_pos_of_mem_shared {t1 t2 : List String} {w : String}
    (h : w ∈ sharedTerms t1 t2) : 0 < t1.count w := by
  have h1 := (List.mem_filter.mp h).1
  exact List.count_pos_iff.mpr (List.mem_dedup.mp h1)

theorem count_snd_pos_of_mem_shared {t1 t2 : List String} {w : String}
    (h : w ∈ sharedTerms t1 t2) : 0 < t2.count w := by
  have h2 := (List.mem_filter.mp h).2
  exact List.count_pos_iff.mpr (by simpa using h2)

theorem tfDot_eq_zero {t1 t2 : List String} (h : sharedTerms t1 t2 = []) :
    tfDot t1 t2 = 0 := by
  simp [tfDot, h]

theorem tfDot_pos {t1 t2 : List String} (h : sharedTerms t1 t2 ≠ []) :
    0 < tfDot t1 t2 := by
  obtain ⟨w, hw⟩ := List.exists_mem_of_ne_nil _ h
  have hmem : t1.count w * t2.count w ∈
      (sharedTerms t1 t2).map (fun w => t1.count w * t2.count w) :=
    List.mem_map_of_mem _ hw
  have hle := List.le_sum_of_mem hmem
  have hpos := Nat.mul_pos (count_fst_pos_of_mem_shared hw)
    (count_snd_pos_of_mem_shared hw)
  unfold tfDot
  omega

theorem tfSharedSq1_pos {t1 t2 : List String} (h : sharedTerms t1 t2 ≠ []) :
    0 < tfSharedSq1 t1 t2 := by
  obtain ⟨w, hw⟩ := List.exists_mem_of_ne_nil _ h
  have hmem : t1.count w ^ 2 ∈
      (sharedTerms t1 t2).map (fun w => t1.count w ^ 2) :=
    List.mem_map_of_mem _ hw
  have hle := List.le_sum_of_mem hmem
  have hpos := count_fst_pos_of_mem_shared hw
  have : 0 < t1.count w ^ 2 := by positivity
  unfold tfSharedSq1
  omega

theorem tfSharedSq2_pos {t1 t2 : List String} (h : sharedTerms t1 t2 ≠ []) :
    0 < tfSharedSq2 t1 t2 := by
  obtain ⟨w, hw⟩ := List.exists_mem_of_ne_nil _ h
  have hmem : t2.count w ^ 2 ∈
      (sharedTerms t1 t2).map (fun w => t2.count w ^ 2) :=
    List.mem_map_of_mem _ hw
  have hle := List.le_sum_of_mem hmem
  have hpos := count_snd_pos_of_mem_shared hw
  have : 0 < t2.count w ^ 2 := by positivity
  unfold tfSharedSq2
  omega

/-- Pure arithmetic core of the denominator clearing: the natural-number
comparison of the gate is equivalent to the rational comparison of the
squared similarity against `1/100`. -/
theorem rat_gate_arith (M1 M2 D W : ℕ) (hM1 : 0 < M1) (hM2 : 0 < M2)
    (hW : 0 < W) :
    (M1 * M2 < 100 * D ^ 2 * W) ↔
      (1 / 100 : ℚ) < (D : ℚ) ^ 2 * W / (M1 * M2) := by
  have hM1Q : (0 : ℚ) < (M1 : ℚ) := by exact_mod_cast hM1
  have hM2Q : (0 : ℚ) < (M2 : ℚ) := by exact_mod_cast hM2
  have hWQ : (0 : ℚ) < (W : ℚ) := by exact_mod_cast hW
  rw [lt_div_iff₀ (by positivity)]
  rw [← Nat.cast_lt (α := ℚ)]
  push_cast
  constructor
  · intro h
    nlinarith [h]
  · intro h
    nlinarith [h]

/-- The natural-number comparison used by `is_content_relevant_to_title`
is exactly the statement that the squared tf-idf cosine similarity between
title and text exceeds `(0.1)^2 = 1/100`.  This justifies the
denominator-cleared embedding of the Python test `similarity > 0.1`. -/
theorem relevance_gate_iff_simSq (wn wd : ℕ) (hd : 0 < wd)
    (hlo : 16 * wd ≤ 9 * wn) (title text : String)
    (h : ¬(tokenize title = [] ∧ tokenize text = [])) :
    (is_content_relevant_to_title wn wd title text = true ↔
      1 / 100 < cosineSimSq ((wn : ℚ) / wd) title text) := by
  have hbool : ((tokenize title).isEmpty && (tokenize text).isEmpty) = false :=
    Bool.eq_false_iff.mpr (fun hb => h (by simpa [List.isEmpty_iff] using hb))
  rw [is_content_relevant_to_title, hbool]
  simp only [Bool.false_eq_true, if_false, decide_eq_true_eq]
  have hwdQ : (0 : ℚ) < (wd : ℚ) := by exact_mod_cast hd
  have hwn : 0 < wn := by omega
  have hwnQ : (0 : ℚ) < (wn : ℚ) := by exact_mod_cast hwn
  by_cases hsh : sharedTerms (tokenize title) (tokenize text) = []
  · -- no shared vocabulary: the dot product is zero, both sides are false
    have hD : tfDot (tokenize title) (tokenize text) = 0 := tfDot_eq_zero hsh
    have hsim : cosineSimSq ((wn : ℚ) / wd) title text = 0 := by
      rw [cosineSimSq]
      rcases eq_or_ne (normSq1 ((wn : ℚ) / wd) (tokenize title) (tokenize text) *
          normSq2 ((wn : ℚ) / wd) (tokenize title) (tokenize text)) 0 with h0 | h0
      · rw [if_pos h0]
      · rw [if_neg h0, hD]
        norm_num
    rw [hD, hsim]
    norm_num
  · -- shared vocabulary present: clear denominators
    have hDpos := tfDot_pos hsh
    have hC1 := tfSharedSq1_pos hsh
    have hC2 := tfSharedSq2_pos hsh
    have hM1 : 0 < tfSharedSq1 (tokenize title) (tokenize text) * wd +
        wn * tfOnlySq1 (tokenize title) (tokenize text) := by positivity
    have hM2 : 0 < tfSharedSq2 (tokenize title) (tokenize text) * wd +
        wn * tfOnlySq2 (tokenize title) (tokenize text) := by positivity
    have hN1 : normSq1 ((wn : ℚ) / wd) (tokenize title) (tokenize text) =
        ((tfSharedSq1 (tokenize title) (tokenize text) * wd +
          wn * tfOnlySq1 (tokenize title) (tokenize text) : ℕ) : ℚ) / wd := by
      rw [normSq1]
      push_cast
      field_simp
    have hN2 : normSq2 ((wn : ℚ) / wd) (tokenize title) (tokenize text) =
        ((tfSharedSq2 (tokenize title) (tokenize text) * wd +
          wn * tfOnlySq2 (tokenize title) (tokenize text) : ℕ) : ℚ) / wd := by
      rw [normSq2]
      push_cast
      field_simp
    have hNne : normSq1 ((wn : ℚ) / wd) (tokenize title) (tokenize text) *
        normSq2 ((wn : ℚ) / wd) (tokenize title) (tokenize text) ≠ 0 := by
      rw [hN1, hN2]
      have hM1Q : (0 : ℚ) < ((tfSharedSq1 (tokenize title) (tokenize text) * wd +
          wn * tfOnlySq1 (tokenize title) (tokenize text) : ℕ) : ℚ) := by
        exact_mod_cast hM1
      have hM2Q : (0 : ℚ) < ((tfSharedSq2 (tokenize title) (tokenize text) * wd +
          wn * tfOnlySq2 (tokenize title) (tokenize text) : ℕ) : ℚ) := by
        exact_mod_cast hM2
      positivity
    have hsim : cosineSimSq ((wn : ℚ) / wd) title text =
        (tfDot (tokenize title) (tokenize text) : ℚ) ^ 2 * (wd ^ 2 : ℕ) /
          (((tfSharedSq1 (tokenize title) (tokenize text) * wd +
              wn * tfOnlySq1 (tokenize title) (tokenize text) : ℕ) : ℚ) *
            ((tfSharedSq2 (tokenize title) (tokenize text) * wd +
              wn * tfOnlySq2 (tokenize title) (tokenize text) : ℕ) : ℚ)) := by
      rw [cosineSimSq, if_neg hNne, hN1, hN2]
      rw [div_mul_div_comm, div_div_eq_mul_div]
      push_cast
      ring_nf
    rw [hsim]
    have harith := rat_gate_arith
      (tfSharedSq1 (tokenize title) (tokenize text) * wd +
        wn * tfOnlySq1 (tokenize title) (tokenize text))
      (tfSharedSq2 (tokenize title) (tokenize text) * wd +
        wn * tfOnlySq2 (tokenize title) (tokenize text))
      (tfDot (tokenize title) (tokenize text)) (wd ^ 2) hM1 hM2 (by positivity)
    rw [gt_iff_lt]
    rw [harith]

/-! ### Supporting lemmas about the freshness decision and the store -/

theorem should_crawl_fresh (fo : Except Unit (Option PyVal)) (now : Int)
    (lm : Option Int) (doc : PyVal) (t : Int) (h1 : fo = .ok (some doc))
    (h2 : getCrawlTime doc = some t) (h3 : now - t < minIntervalSeconds) :
    should_crawl fo now lm = (false, some doc) := by
  subst h1
  simp only [should_crawl, h2]
  rw [if_pos h3]

theorem pyTruthy_of_lookup (v : PyVal) (k : String) (w : PyVal)
    (h : docLookup v k = some w) : pyTruthy v = true := by
  cases v with
  | str s => exact absurd h (by simp [docLookup])
  | int n => exact absurd h (by simp [docLookup])
  | dt t0 => exact absurd h (by simp [docLookup])
  | none => exact absurd h (by simp [docLookup])
  | dict f =>
    cases f with
    | nil => exact absurd h (by simp [docLookup, PyFields.lookup])
    | cons a b c => rfl

/-- Validation of the success document always fails: the literal
`"failure_reason": None` violates the `str` entry of the schema, and
`sanitize_data` does not recurse into the nested `metadata` dict, so the
second validation fails as well and `prepare_for_mongodb` raises
`ValueError`. -/
theorem prepare_success_error (now nowm : Int) (u tx : String)
    (ti : Option String) (srcMeta lf : PyVal) (m0 h : String) (wc : Nat)
    (att : Int) :
    prepare_for_mongodb now RAW_CONTENT_SCHEMA
      (.dict (successDocFields u ti tx srcMeta
        (successCrawlMeta m0 nowm h wc att lf) m0 nowm wc h)) =
      .error () := by
  have h1 : validateDoc RAW_CONTENT_SCHEMA
      (.dict (successDocFields u ti tx srcMeta
        (successCrawlMeta m0 nowm h wc att lf) m0 nowm wc h)) ≠ 0 := by
    simp [validateDoc, validateFields, validateField, validate_type,
      PyFields.lookup, successDocFields, successCrawlMeta,
      RAW_CONTENT_SCHEMA, CRAWL_META_SCHEMA]
  have h2 : validateDoc RAW_CONTENT_SCHEMA
      (sanitizeDoc now RAW_CONTENT_SCHEMA
        (.dict (successDocFields u ti tx srcMeta
          (successCrawlMeta m0 nowm h wc att lf) m0 nowm wc h))) ≠ 0 := by
    simp [sanitizeDoc, sanitizeFields, sanitizeField, sanitizeDefault, pyStr,
      validateDoc, validateFields, validateField, validate_type,
      PyFields.lookup, successDocFields, successCrawlMeta,
      RAW_CONTENT_SCHEMA, CRAWL_META_SCHEMA]
  rw [prepare_for_mongodb, if_neg h1, if_neg h2]

/-! ### Claim theorems -/

/-- C6 (amended): storing a crawl result never completes.  For every
collection state and every result, `_store_result` raises: the success
document it builds always carries `"failure_reason": None` (and on a first
crawl also `"last_failure": None`) where `RAW_CONTENT_SCHEMA` requires a
string and a datetime respectively, `sanitize_data` passes the nested
`metadata` dict through unchanged, and the re-validation failure makes
`prepare_for_mongodb` raise `ValueError`, which `_store_result` re-raises.
The upsert is unreachable, so the collection is left unchanged and an
existing document for the URL survives with all of its old fields. -/
theorem c6_store_result_always_raises (now : Int) (hash : String → String)
    (writeOk : Bool) (coll : List PyVal) (r : CrawlResult) :
    store_result now hash writeOk coll r = .error () := by
  cases hmeta : existingCrawlMeta ((find_one coll r.url).getD (PyVal.dict .nil)) with
  | error e => simp [store_result, hmeta]
  | ok cf =>
    cases hatt : existingAttempts cf with
    | error e => simp [store_result, hmeta, hatt]
    | ok att => simp [store_result, hmeta, hatt, prepare_success_error]

/-- C6 counterexample: a URL with an existing stored document (`docC6`,
old text, a recorded last failure at time 55) is stored again with fresh
content `rC6`.  The claim predicts one stored document every field of
which reflects the latest result; in fact `_store_result` raises
`ValueError` before the upsert, the collection still holds `docC6` with
its old text — and even the document the code tried to write would have
carried `crawl_meta.last_failure` over from the earlier record (third
conjunct). -/
theorem c6_upsert_counterexample :
    find_one [docC6] "https://example.com/c6" = some docC6 ∧
    docLookup docC6 "text" = some (.str "old text content") ∧
    (successCrawlMeta "javascript" 2000 "newhash" 3 2
        (PyVal.dt 55)).lookup "last_failure" = some (.dt 55) ∧
    store_result 2000 (fun _ => "newhash") true [docC6] rC6 = .error () :=
  ⟨rfl, rfl, rfl, rfl⟩

/-- C9: `_record_crawl_failure` builds exactly the overwrite document the
claim describes — empty title, empty text, empty top-level fingerprint,
status `failed`, carrying over only the attempt count (incremented) and
the last-success timestamp inside the crawl metadata — but the write never
happens: `crawl_meta.content_hash` is the literal `None` where the schema
requires a string, sanitisation cannot repair the nested dict, and the
method raises `ValueError` instead of overwriting (final conjunct, for a
URL with the existing stored document `docC9`). -/
theorem c9_record_failure_eval :
    (failureDocFields "https://example.com/c9" 2000
        (failureCrawlMeta 2000 3 (PyVal.dt 111) "Unknown error")).lookup
      "title" = some (.str "") ∧
    (failureDocFields "https://example.com/c9" 2000
        (failureCrawlMeta 2000 3 (PyVal.dt 111) "Unknown error")).lookup
      "text" = some (.str "") ∧
    (failureDocFields "https://example.com/c9" 2000
        (failureCrawlMeta 2000 3 (PyVal.dt 111) "Unknown error")).lookup
      "content_hash" = some (.str "") ∧
    (failureDocFields "https://example.com/c9" 2000
        (failureCrawlMeta 2000 3 (PyVal.dt 111) "Unknown error")).lookup
      "status" = some (.str "failed") ∧
    (failureCrawlMeta 2000 3 (PyVal.dt 111) "Unknown error").lookup
      "content_hash" = some PyVal.none ∧
    (failureCrawlMeta 2000 3 (PyVal.dt 111) "Unknown error").lookup
      "attempts" = some (.int 4) ∧
    (failureCrawlMeta 2000 3 (PyVal.dt 111) "Unknown error").lookup
      "last_success" = some (.dt 111) ∧
    record_crawl_failure 2000 true [docC9] "https://example.com/c9"
      "Unknown error" = .error () :=
  ⟨rfl, rfl, rfl, rfl, rfl, rfl, rfl, rfl⟩

/-- C1: escalation scenario evaluated on the code.  In `envC1` the static
strategy fails and the rendered (Playwright) strategy returns a result
`rC1` that passes every acceptance check (text length over 100 and a
relevance-gate pass, first conjunct).  The claim predicts a stored
document with the rendered method tag and no Apify invocation; instead
storing `rC1` raises `ValueError` (second conjunct, the schema-validation
defect), the orchestrator continues through selenium and scrapy, invokes
Apify — visible as `"apify"` in the attempted list — stores nothing, and
finally raises out of `_record_crawl_failure` (third conjunct). -/
theorem c1_escalation_order_eval :
    (100 < rC1.text.length ∧
      is_content_relevant_to_title 2 1 (rC1.title.getD "") rC1.text = true) ∧
    store_result 1000 envC1.hash true [] rC1 = .error () ∧
    crawl_url 2 1 envC1 "https://example.com/c1" [] =
      ⟨["static", "javascript", "selenium", "scrapy", "apify"],
        Except.error (), []⟩ :=
  ⟨⟨by decide, by decide⟩, rfl, rfl⟩

/-- C2: a URL with an existing record whose last crawl lies strictly
within the 7-day minimum interval before now is not re-crawled:
`should_crawl` returns `(False, existing_document)` with exactly the
document found by the ledger lookup. -/
theorem c2_freshness_skip (fo : Except Unit (Option PyVal)) (now : Int)
    (lm : Option Int) (doc : PyVal) (t : Int) (h1 : fo = .ok (some doc))
    (h2 : getCrawlTime doc = some t) (h3 : now - t < minIntervalSeconds) :
    should_crawl fo now lm = (false, some doc) :=
  should_crawl_fresh fo now lm doc t h1 h2 h3

/-- C2 witness: a record crawled exactly one day (86400 seconds) ago is
served from the cache. -/
theorem c2_freshness_skip_witness :
    should_crawl (Except.ok (some docC2)) 86400 Option.none =
      (false, some docC2) :=
  c2_freshness_skip _ 86400 Option.none docC2 0 rfl rfl (by decide)

/-- C7: `should_crawl` fails open.  If the ledger lookup raises, the
result is `(True, None)`; likewise if the stored record is unusable (no
datetime `crawl_time`, so the interval computation raises inside the
handler).  `should_crawl` is total — the embedding returns a plain pair,
never an exception, mirroring the `except` handler that swallows every
internal error. -/
theorem c7_fail_open :
    (∀ (now : Int) (lm : Option Int),
        should_crawl (Except.error ()) now lm = (true, Option.none)) ∧
      ∀ (now : Int) (lm : Option Int) (doc : PyVal),
        getCrawlTime doc = Option.none →
          should_crawl (Except.ok (some doc)) now lm = (true, Option.none) := by
  constructor
  · intro now lm
    rfl
  · intro now lm doc h
    simp only [should_crawl, h]

/-- C7 witness: a raising lookup and a malformed record both fail open. -/
theorem c7_fail_open_witness :
    should_crawl (Except.error ()) 5 Option.none = (true, Option.none) ∧
      should_crawl (Except.ok (some docC7bad)) 5 Option.none =
        (true, Option.none) :=
  ⟨c7_fail_open.1 5 Option.none, c7_fail_open.2 5 Option.none docC7bad rfl⟩

/-- The similarity facts behind the C3 counterexample hold for every real
weight in `[16/9, 9/4]` — in particular for the true squared idf weight
`(1 + ln(3/2))^2`, which `idf_weight_sq_bounds` places in that interval.
For the empty title the dot product is 0 (similarity 0, so the code must
reject); for the threshold pair the code accepts
(`100 D^2` exceeds the squared-norm product, i.e. similarity over 0.1)
while the squared similarity stays below `(0.2)^2` (so the claimed
threshold of 0.2 demands rejection). -/
theorem c3_true_weight_range_facts (A : ℝ) (h1 : 16 / 9 ≤ A)
    (h2 : A ≤ 9 / 4) :
    tfDot (tokenize "") (tokenize "hello world program") = 0 ∧
    (100 * (tfDot (tokenize "cats alpha beta")
          (tokenize "cats gamma delta epsilon") : ℝ) ^ 2 >
      ((tfSharedSq1 (tokenize "cats alpha beta")
            (tokenize "cats gamma delta epsilon") : ℝ) +
          A * (tfOnlySq1 (tokenize "cats alpha beta")
            (tokenize "cats gamma delta epsilon") : ℝ)) *
        ((tfSharedSq2 (tokenize "cats alpha beta")
            (tokenize "cats gamma delta epsilon") : ℝ) +
          A * (tfOnlySq2 (tokenize "cats alpha beta")
            (tokenize "cats gamma delta epsilon") : ℝ))) ∧
    (25 * (tfDot (tokenize "cats alpha beta")
          (tokenize "cats gamma delta epsilon") : ℝ) ^ 2 <
      ((tfSharedSq1 (tokenize "cats alpha beta")
            (tokenize "cats gamma delta epsilon") : ℝ) +
          A * (tfOnlySq1 (tokenize "cats alpha beta")
            (tokenize "cats gamma delta epsilon") : ℝ)) *
        ((tfSharedSq2 (tokenize "cats alpha beta")
            (tokenize "cats gamma delta epsilon") : ℝ) +
          A * (tfOnlySq2 (tokenize "cats alpha beta")
            (tokenize "cats gamma delta epsilon") : ℝ))) := by
  have hD0 : tfDot (tokenize "") (tokenize "hello world program") = 0 := by
    decide
  have hD : tfDot (tokenize "cats alpha beta")
      (tokenize "cats gamma delta epsilon") = 1 := by decide
  have hC1 : tfSharedSq1 (tokenize "cats alpha beta")
      (tokenize "cats gamma delta epsilon") = 1 := by decide
  have hU1 : tfOnlySq1 (tokenize "cats alpha beta")
      (tokenize "cats gamma delta epsilon") = 2 := by decide
  have hC2 : tfSharedSq2 (tokenize "cats alpha beta")
      (tokenize "cats gamma delta epsilon") = 1 := by decide
  have hU2 : tfOnlySq2 (tokenize "cats alpha beta")
      (tokenize "cats gamma delta epsilon") = 3 := by decide
  refine ⟨hD0, ?_, ?_⟩
  · rw [hD, hC1, hU1, hC2, hU2]
    push_cast
    nlinarith [h1, h2]
  · rw [hD, hC1, hU1, hC2, hU2]
    push_cast
    nlinarith [h1, h2]

/-- C3 counterexample.  The claim predicts (i) relevance `true` when the
title is empty — but with an empty title and nonempty text the tf-idf row
of the title is zero, the similarity is 0, and the code returns `False`
(first pair of conjuncts; the vectorizer raises, and the handler returns
`True`, only when BOTH inputs have an empty vocabulary); and (ii)
relevance exactly when the similarity is at least 0.2 — but for the
`cats`-pair the similarity lies strictly between 0.1 and 0.2, so the code
returns `True` (second pair) while the squared similarity stays below
`(1/5)^2` (third pair).  The weights 16/9 and 9/4 bracket the true squared
idf weight (`idf_weight_sq_bounds`), and `c3_true_weight_range_facts`
shows the same facts for every weight in between. -/
theorem c3_relevance_counterexample :
    (is_content_relevant_to_title 16 9 "" "hello world program" = false ∧
      is_content_relevant_to_title 9 4 "" "hello world program" = false) ∧
    (is_content_relevant_to_title 16 9 "cats alpha beta"
        "cats gamma delta epsilon" = true ∧
      is_content_relevant_to_title 9 4 "cats alpha beta"
        "cats gamma delta epsilon" = true) ∧
    (cosineSimSq ((16 : ℚ) / 9) "cats alpha beta"
        "cats gamma delta epsilon" < 1 / 25 ∧
      cosineSimSq ((9 : ℚ) / 4) "cats alpha beta"
        "cats gamma delta epsilon" < 1 / 25) := by
  have hD : tfDot (tokenize "cats alpha beta")
      (tokenize "cats gamma delta epsilon") = 1 := by decide
  have hC1 : tfSharedSq1 (tokenize "cats alpha beta")
      (tokenize "cats gamma delta epsilon") = 1 := by decide
  have hU1 : tfOnlySq1 (tokenize "cats alpha beta")
      (tokenize "cats gamma delta epsilon") = 2 := by decide
  have hC2 : tfSharedSq2 (tokenize "cats alpha beta")
      (tokenize "cats gamma delta epsilon") = 1 := by decide
  have hU2 : tfOnlySq2 (tokenize "cats alpha beta")
      (tokenize "cats gamma delta epsilon") = 3 := by decide
  refine ⟨⟨by decide, by decide⟩, ⟨by decide, by decide⟩, ?_, ?_⟩
  · simp only [cosineSimSq, normSq1, normSq2, hD, hC1, hU1, hC2, hU2]
    push_cast
    rw [if_neg (by norm_num)]
    norm_num
  · simp only [cosineSimSq, normSq1, normSq2, hD, hC1, hU1, hC2, hU2]
    push_cast
    rw [if_neg (by norm_num)]
    norm_num

/-- C3 (amended): the relevance check takes no threshold parameter and
uses the fixed strict threshold 0.1.  For every weight fraction
`wn / wd` in `[16/9, 9/4]` (an interval containing the true squared idf
weight): when both inputs normalise to an empty vocabulary the vectorizer
raises and the handler returns `True`; when the inputs share no
vocabulary (including the case where exactly one is empty) the check
returns `False`; otherwise it returns `True` exactly when the squared
tf-idf cosine similarity strictly exceeds `(0.1)^2 = 1/100`. -/
theorem c3_relevance_amended (wn wd : ℕ) (hd : 0 < wd)
    (hlo : 16 * wd ≤ 9 * wn) (hhi : 4 * wn ≤ 9 * wd) (title text : String) :
    (tokenize title = [] ∧ tokenize text = [] →
        is_content_relevant_to_title wn wd title text = true) ∧
    (sharedTerms (tokenize title) (tokenize text) = [] →
      ¬(tokenize title = [] ∧ tokenize text = []) →
        is_content_relevant_to_title wn wd title text = false) ∧
    (¬(tokenize title = [] ∧ tokenize text = []) →
      (is_content_relevant_to_title wn wd title text = true ↔
        1 / 100 < cosineSimSq ((wn : ℚ) / wd) title text)) := by
  refine ⟨?_, ?_, ?_⟩
  · rintro ⟨h1, h2⟩
    rw [is_content_relevant_to_title]
    simp [h1, h2]
  · intro hsh hne
    have hbool : ((tokenize title).isEmpty && (tokenize text).isEmpty) = false :=
      Bool.eq_false_iff.mpr (fun hb => hne (by simpa [List.isEmpty_iff] using hb))
    rw [is_content_relevant_to_title, hbool]
    simp only [Bool.false_eq_true, if_false]
    apply decide_eq_false
    rw [tfDot_eq_zero hsh]
    simp
  · intro hne
    exact relevance_gate_iff_simSq wn wd hd hlo title text hne

/-- C3 witness: disjoint-vocabulary inputs are rejected, and two inputs
with an entirely empty vocabulary are accepted by the error path. -/
theorem c3_relevance_amended_witness :
    is_content_relevant_to_title 2 1 "pq" "rs" = false ∧
      is_content_relevant_to_title 2 1 "" "" = true :=
  ⟨(c3_relevance_amended 2 1 (by decide) (by decide) (by decide)
      "pq" "rs").2.1 (by decide) (by decide),
   (c3_relevance_amended 2 1 (by decide) (by decide) (by decide)
      "" "").1 (by decide)⟩

/-- One strategy step of the free-crawler loop with insufficient content:
a result whose text has at most the threshold length is neither stored nor
returned, and the loop continues with the remaining strategies on the
unchanged collection. -/
theorem freeLoop_short_skip (wn wd : ℕ) (now : Int) (hash : String → String)
    (writeOk : Bool) (key : String)
    (rest : List (String × Except Unit (Option CrawlResult)))
    (coll : List PyVal) (r : CrawlResult) (hlen : r.text.length < 100) :
    freeLoop wn wd now hash writeOk ((key, .ok (some r)) :: rest) coll =
      (fun o => (o.1, key :: o.2.1, o.2.2))
        (freeLoop wn wd now hash writeOk rest coll) := by
  simp only [freeLoop]
  rw [if_neg (show ¬(r.text ≠ "" ∧ 100 < r.text.length) from
    fun hc => absurd hc.2 (by omega))]

/-- One strategy step of the free-crawler loop when the strategy returned
`None`. -/
theorem freeLoop_none_skip (wn wd : ℕ) (now : Int) (hash : String → String)
    (writeOk : Bool) (key : String)
    (rest : List (String × Except Unit (Option CrawlResult)))
    (coll : List PyVal) :
    freeLoop wn wd now hash writeOk ((key, .ok Option.none) :: rest) coll =
      (fun o => (o.1, key :: o.2.1, o.2.2))
        (freeLoop wn wd now hash writeOk rest coll) := by
  simp only [freeLoop]

/-- C4: the content-length floor.  First conjunct: in the free-crawler
loop of `crawl_url`, a strategy whose fetch returns a result with fewer
than 100 characters of text (for example 50) contributes nothing — the
result is neither stored nor returned, the collection is unchanged at that
step, and the loop continues with the next strategy in priority order.
Second conjunct, at the orchestrator level: when the static strategy
returns such a result, the entire strategy cascade behaves exactly as if
the static strategy had returned nothing. -/
theorem c4_content_floor :
    (∀ (wn wd : ℕ) (now : Int) (hash : String → String) (writeOk : Bool)
        (key : String)
        (rest : List (String × Except Unit (Option CrawlResult)))
        (coll : List PyVal) (r : CrawlResult), r.text.length < 100 →
        freeLoop wn wd now hash writeOk ((key, .ok (some r)) :: rest) coll =
          (fun o => (o.1, key :: o.2.1, o.2.2))
            (freeLoop wn wd now hash writeOk rest coll)) ∧
    ∀ (wn wd : ℕ) (env : Env) (url : String) (coll : List PyVal)
      (r : CrawlResult),
      env.static = .ok (some r) → r.text.length < 100 →
      runStrategies wn wd env url coll =
        runStrategies wn wd { env with static := .ok Option.none } url coll := by
  constructor
  · intro wn wd now hash writeOk key rest coll r hlen
    exact freeLoop_short_skip wn wd now hash writeOk key rest coll r hlen
  · intro wn wd env url coll r hst hlen
    have heq : freeLoop wn wd env.now env.hash env.storeWriteOk
        (strategyList env) coll =
        freeLoop wn wd env.now env.hash env.storeWriteOk
          (strategyList { env with static := .ok Option.none }) coll := by
      simp only [strategyList, hst]
      rw [freeLoop_short_skip wn wd env.now env.hash env.storeWriteOk
        "static" _ coll r hlen]
      rw [freeLoop_none_skip]
    simp only [runStrategies]
    rw [heq]

/-- C4 witness: a 50-character static result is skipped and the loop
moves on to the rendered strategy. -/
theorem c4_content_floor_witness :
    freeLoop 2 1 0 (fun _ => "h4") true
      [("static", Except.ok (some rC4short)),
        ("javascript", Except.ok Option.none)] [] =
      (Option.none, ["static", "javascript"], []) := by
  rw [c4_content_floor.1 2 1 0 (fun _ => "h4") true "static"
    [("javascript", Except.ok Option.none)] [] rC4short (by decide)]
  rfl

/-- C5 counterexample.  In `envC5` the static strategy succeeds with an
accepted result (ample length, relevance pass — first conjunct) whose
persistence then fails (it always does, by the validation defect).  The
claim predicts that `crawl_url` surfaces that persistence failure as the
hard error for the URL instead of discarding the fetched document; in
fact the orchestrator swallows the error and continues — the rendered,
selenium, scrapy and Apify strategies are all attempted afterwards, the
fetched document is discarded (result carries no document), and the error
that finally escapes comes from the unrelated failure-recording write. -/
theorem c5_store_failure_counterexample :
    (100 < rC5.text.length ∧
      is_content_relevant_to_title 2 1 (rC5.title.getD "") rC5.text = true) ∧
    crawl_url 2 1 envC5 "https://example.com/c5" [] =
      ⟨["static", "javascript", "selenium", "scrapy", "apify"],
        Except.error (), []⟩ :=
  ⟨⟨by decide, by decide⟩, rfl⟩

/-- C5 (amended): when a strategy result passes every acceptance check
(nonempty text over 100 characters, truthy title, relevance) but
`_store_result` raises, `crawl_url` catches the storage error and
continues with the next strategy on the unchanged collection; the
successfully fetched document is discarded rather than surfaced. -/
theorem c5_store_failure_amended (wn wd : ℕ) (now : Int)
    (hash : String → String) (writeOk : Bool) (key : String)
    (rest : List (String × Except Unit (Option CrawlResult)))
    (coll : List PyVal) (r : CrawlResult) (t : String)
    (htext : r.text ≠ "") (hlen : 100 < r.text.length)
    (hti : r.title = some t) (htne : t ≠ "")
    (hrel : is_content_relevant_to_title wn wd t r.text = true)
    (hstore : store_result now hash writeOk coll r = .error ()) :
    freeLoop wn wd now hash writeOk ((key, .ok (some r)) :: rest) coll =
      (fun o => (o.1, key :: o.2.1, o.2.2))
        (freeLoop wn wd now hash writeOk rest coll) := by
  simp only [freeLoop, hti]
  rw [if_pos (⟨htext, hlen⟩ : r.text ≠ "" ∧ 100 < r.text.length)]
  rw [if_pos htne]
  simp only [hrel, if_true, hstore]

/-- C5 witness: the accepted static result `rC5` fails to store and the
loop continues to the rendered strategy. -/
theorem c5_store_failure_amended_witness :
    freeLoop 2 1 3000 (fun _ => "h5w") true
      [("static", Except.ok (some rC5)),
        ("javascript", Except.ok Option.none)] [] =
      (Option.none, ["static", "javascript"], []) := by
  rw [c5_store_failure_amended 2 1 3000 (fun _ => "h5w") true "static"
    [("javascript", Except.ok Option.none)] [] rC5 (rC5.title.getD "")
    (by decide) (by decide) rfl (by decide) (by decide) rfl]
  rfl

/-- C10: the ledger/cache lookup of `crawl_url` runs before the
known-non-content-URL rejection.  First conjunct: for a syntactically
valid URL containing `google.com/search` with a fresh, well-formed cached
document, `crawl_url` returns the cached document rebuilt as a
`CrawlResult`, attempts no strategy and leaves the collection unchanged.
Second conjunct: with no cached record, the same URL is rejected
(`None`), again without attempting any strategy. -/
theorem c10_cache_before_google_check :
    (∀ (wn wd : ℕ) (env : Env) (url : String) (coll : List PyVal)
        (doc m : PyVal) (u ti tx me : String) (t : Int),
        validUrl url = true →
        containsSub url "google.com/search" = true →
        env.findOne = .ok (some doc) →
        docLookup doc "url" = some (.str u) →
        docLookup doc "title" = some (.str ti) →
        docLookup doc "text" = some (.str tx) →
        docLookup doc "metadata" = some m →
        docLookup doc "crawl_time" = some (.dt t) →
        docLookup doc "method" = some (.str me) →
        env.now - t < minIntervalSeconds →
        crawl_url wn wd env url coll =
          ⟨[], .ok (some ⟨u, some ti, tx, m, t, me⟩), coll⟩) ∧
    ∀ (wn wd : ℕ) (env : Env) (url : String) (coll : List PyVal),
      validUrl url = true →
      containsSub url "google.com/search" = true →
      env.findOne = .ok Option.none →
      crawl_url wn wd env url coll = ⟨[], .ok Option.none, coll⟩ := by
  constructor
  · intro wn wd env url coll doc m u ti tx me t hv hg hfo hu hti htx hm hct
      hme hfresh
    have hgc : getCrawlTime doc = some t := by simp [getCrawlTime, hct]
    have hsc := should_crawl_fresh env.findOne env.now env.lastModified doc t
      hfo hgc hfresh
    have htr : pyTruthy doc = true := pyTruthy_of_lookup doc "url" (.str u) hu
    have hcache : cacheDoc (should_crawl env.findOne env.now env.lastModified) =
        some doc := by
      rw [hsc]
      simp [cacheDoc, htr]
    have hcr : cachedResult doc = .ok ⟨u, some ti, tx, m, t, me⟩ := by
      simp only [cachedResult, hu, hti, htx, hm, hct, hme]
    simp [crawl_url, hv, hcache, hcr]
  · intro wn wd env url coll hv hg hfo
    simp [crawl_url, hv, hfo, should_crawl, cacheDoc, hg]

/-- C10 witness: a Google search URL with a fresh cached document is
served from the cache, no strategy attempted. -/
theorem c10_cache_before_google_check_witness :
    crawl_url 2 1 envC10 "https://google.com/search?q=cached" [] =
      ⟨[], Except.ok (some ⟨"https://google.com/search?q=cached",
        some "Cached Title", "cached text body",
        PyVal.dict (.cons "source_meta" (.dict .nil) .nil), 900, "static"⟩),
        []⟩ :=
  c10_cache_before_google_check.1 2 1 envC10 "https://google.com/search?q=cached"
    [] docC10 (PyVal.dict (.cons "source_meta" (.dict .nil) .nil))
    "https://google.com/search?q=cached" "Cached Title" "cached text body"
    "static" 900 (by decide) (by decide) rfl rfl rfl rfl rfl rfl rfl
    (by decide)

/-- An in-bounds `getD` is a member of the list. -/
theorem getD_mem {α : Type} (l : List α) (n : Nat) (d : α)
    (h : n < l.length) : l.getD n d ∈ l := by
  induction l generalizing n with
  | nil => simp at h
  | cons a tl ih =>
    cases n with
    | zero => simp [List.getD]
    | succ m =>
      rw [List.getD_cons_succ]
      exact List.mem_cons_of_mem a (ih m (by simpa using h))

/-- The rotation loop never yields a proxy from the failed set, and any
proxy it yields passed the connectivity test. -/
theorem rotate_sound (test : String → Bool) (plist : List String) :
    ∀ (fuel : Nat) (idx : Int) (failed : List String) (p : String) (i : Int)
      (f : List String),
      rotate test plist fuel idx failed = (some p, i, f) →
      p ∉ failed ∧ test p = true := by
  intro fuel
  induction fuel with
  | zero =>
    intro idx failed p i f h
    exact absurd h (by simp [rotate])
  | succ n ih =>
    intro idx failed p i f h
    simp only [rotate] at h
    by_cases hmem : plist.getD ((idx + 1) % (plist.length : Int)).toNat "" ∈ failed
    · rw [if_pos hmem] at h
      exact ih _ _ _ _ _ h
    · rw [if_neg hmem] at h
      by_cases htest :
          test (plist.getD ((idx + 1) % (plist.length : Int)).toNat "") = true
      · rw [if_pos htest] at h
        simp only [Prod.mk.injEq, Option.some.injEq] at h
        obtain ⟨rfl, rfl, rfl⟩ := h
        exact ⟨hmem, htest⟩
      · rw [if_neg htest] at h
        have hr := ih _ _ _ _ _ h
        exact ⟨fun hx => hr.1 (List.mem_cons_of_mem _ hx), hr.2⟩

/-- When every proxy of a nonempty pool is in the failed set, the rotation
loop yields nothing and leaves the failed set unchanged. -/
theorem rotate_all_failed (test : String → Bool) (plist : List String)
    (failed : List String) (hne : plist ≠ [])
    (hall : ∀ q ∈ plist, q ∈ failed) :
    ∀ (fuel : Nat) (idx : Int),
      (rotate test plist fuel idx failed).1 = Option.none ∧
        (rotate test plist fuel idx failed).2.2 = failed := by
  intro fuel
  induction fuel with
  | zero => intro idx; exact ⟨rfl, rfl⟩
  | succ n ih =>
    intro idx
    have hlenI : (0 : Int) < (plist.length : Int) := by
      exact_mod_cast List.length_pos.mpr hne
    have h0 : 0 ≤ (idx + 1) % (plist.length : Int) :=
      Int.emod_nonneg _ (by omega)
    have h1 : (idx + 1) % (plist.length : Int) < (plist.length : Int) :=
      Int.emod_lt_of_pos _ hlenI
    have hidx : ((idx + 1) % (plist.length : Int)).toNat < plist.length := by
      have hx : (((idx + 1) % (plist.length : Int)).toNat : Int) <
          (plist.length : Int) := by
        rw [Int.toNat_of_nonneg h0]
        exact h1
      exact_mod_cast hx
    have hmem : plist.getD ((idx + 1) % (plist.length : Int)).toNat "" ∈ failed :=
      hall _ (getD_mem plist _ "" hidx)
    simp only [rotate]
    rw [if_pos hmem]
    exact ih _

/-- C8 counterexample.  Pool of one proxy `http://p1`, already marked
failed; the rotation is exhausted and the FreeProxy fallback happens to
return the same address, which passes the connectivity test.  The claim
says a proxy in the failed set is never returned; in fact
`get_next_proxy` returns `http://p1` even though it is in the failed set —
the fallback result is tested for connectivity but never checked against
the failed set. -/
theorem c8_proxy_counterexample :
    (get_next_proxy alwaysTrue (Except.ok (some "http://p1")) [] stC8).1 =
      some "http://p1" ∧ "http://p1" ∈ stC8.failed :=
  ⟨rfl, by simp [stC8]⟩

/-- C8 (amended).  First conjunct: a proxy produced by the rotation loop
is never in the failed set and always passed the connectivity test.
Second conjunct: from a pool of three proxies with proxy 1 marked failed,
four successive calls yield proxies 2, 3, 2, 3 in round-robin order.
Third conjunct: when the pool is nonempty but fully failed and the
FreeProxy fallback yields nothing (raises or returns `None`),
`get_next_proxy` returns `None` rather than raising.  Only the rotation
guarantees avoidance of the failed set; the fallback does not
(see the counterexample above). -/
theorem c8_proxy_amended :
    (∀ (test : String → Bool) (plist : List String) (fuel : Nat)
        (idx i : Int) (failed f : List String) (p : String),
        rotate test plist fuel idx failed = (some p, i, f) →
        p ∉ failed ∧ test p = true) ∧
    ((get_next_proxy alwaysTrue (Except.ok Option.none) [] stRR).1 =
        some "p2" ∧
      (get_next_proxy alwaysTrue (Except.ok Option.none) []
          (get_next_proxy alwaysTrue (Except.ok Option.none) [] stRR).2).1 =
        some "p3" ∧
      (get_next_proxy alwaysTrue (Except.ok Option.none) []
          (get_next_proxy alwaysTrue (Except.ok Option.none) []
            (get_next_proxy alwaysTrue (Except.ok Option.none) []
              stRR).2).2).1 = some "p2" ∧
      (get_next_proxy alwaysTrue (Except.ok Option.none) []
          (get_next_proxy alwaysTrue (Except.ok Option.none) []
            (get_next_proxy alwaysTrue (Except.ok Option.none) []
              (get_next_proxy alwaysTrue (Except.ok Option.none) []
                stRR).2).2).2).1 = some "p3") ∧
    ∀ (test : String → Bool) (fp : Except Unit (Option String))
      (reload : List String) (st : ProxyState),
      st.proxy_list ≠ [] → (∀ q ∈ st.proxy_list, q ∈ st.failed) →
      (fp = .error () ∨ fp = .ok Option.none) →
      (get_next_proxy test fp reload st).1 = Option.none := by
  refine ⟨?_, ⟨rfl, rfl, rfl, rfl⟩, ?_⟩
  · intro test plist fuel idx i failed f p h
    exact rotate_sound test plist fuel idx failed p i f h
  · intro test fp reload st hne hall hfp
    have hie : st.proxy_list.isEmpty = false := by
      simp [List.isEmpty_iff, hne]
    have hrot := rotate_all_failed test st.proxy_list st.failed hne hall
      st.proxy_list.length st.current_index
    rcases hr : rotate test st.proxy_list st.proxy_list.length
        st.current_index st.failed with ⟨r1, ri, rf⟩
    rw [hr] at hrot
    have hr1 : r1 = Option.none := hrot.1
    subst hr1
    simp only [get_next_proxy, hie, Bool.false_eq_true, if_false]
    rw [hr]
    rcases hfp with rfl | rfl
    · rfl
    · rfl

/-- C8 witness. -/
theorem c8_proxy_amended_witness :
    ("q1" ∉ ([] : List String) ∧ alwaysTrue "q1" = true) ∧
      (get_next_proxy alwaysTrue (Except.ok Option.none) [] stAllFailed).1 =
        Option.none :=
  ⟨c8_proxy_amended.1 alwaysTrue ["q1", "q2"] 2 (-1) 0 [] [] "q1" (by rfl),
    c8_proxy_amended.2.2 alwaysTrue (Except.ok Option.none) [] stAllFailed
      (by simp [stAllFailed]) (by simp [stAllFailed]) (Or.inr rfl)⟩

end KbCursor
